import Mathlib

/-!
Verification of the ORAC-STT runtime coordination layer against its
natural-language specification.  The Python source is shallowly embedded:
pure fragments become Lean functions, stateful methods become explicit
state-passing functions, Python machine floats are modelled as exact
rationals, and fallible code returns Except or Option.
-/

namespace OracStt

/-! ## Python string helpers

Models of the Python built-ins used by the source.  The models cover the
ASCII range; theorems whose truth depends on the character class of the
input carry an explicit ASCII hypothesis. -/

/-- Characters treated as whitespace by Python str.strip (ASCII range). -/
def pyIsSpace (c : Char) : Bool :=
  c = ' ' || c = '\t' || c = '\n' || c = '\r' || c = '\x0b' || c = '\x0c'

/-- Python str.strip with no argument: drop leading and trailing whitespace. -/
def pyStrip (s : String) : String :=
  String.mk (((s.data.dropWhile pyIsSpace).reverse.dropWhile pyIsSpace).reverse)

/-- Python str.startswith: the argument is a literal character-list
prefix of the string. -/
def pyStartsWith (s pre : String) : Bool := pre.data.isPrefixOf s.data

/-- Python str.isalnum on one character (ASCII range of the model; Python
additionally accepts non-ASCII Unicode alphanumerics, which are outside
the scope of the theorems below). -/
def pyIsAlnumChar (c : Char) : Bool := c.isAlphanum

/-- Python str.isalnum on a string: non-empty and every character
alphanumeric (stated over the character list of the string). -/
def pyIsAlnumStr (s : String) : Bool := !s.data.isEmpty && s.data.all pyIsAlnumChar

/-- Python s.replace with the underscore replaced by the empty string:
drop every underscore character. -/
def removeUnderscores (s : String) : String :=
  String.mk (s.data.filter (fun c => c ≠ '_'))

/-- True iff every character of the string is in the ASCII range. -/
def isAsciiString (s : String) : Bool := s.data.all (fun c => c.toNat < 128)

/-- The topic-name pattern of the specification, one or more characters
from A-Z a-z 0-9 underscore.  This definition follows the spec's words
and is compared against the validation the code performs. -/
def matchesTopicPattern (s : String) : Bool :=
  !s.data.isEmpty && s.data.all (fun c => c.isAlphanum || c = '_')

/-! ## Command history ring (history/command_buffer.py)

The Command dataclass of the source has exactly the fields below; in
particular it has no error flag and no error-message field.  The opaque
uuid and wall-clock timestamp are modelled as naturals. -/

/-- history/command_buffer.py, dataclass Command. -/
structure Command where
  id : Nat
  text : String
  audioPath : Option String
  timestamp : Nat
  duration : Rat
  confidence : Rat
  language : Option String
  processingTime : Rat
deriving DecidableEq, Repr

/-- history/command_buffer.py, class CommandBuffer: max_size together with
the deque contents, oldest first, exactly as the deque stores them. -/
structure CommandBuffer where
  max_size : Nat
  buffer : List Command
deriving DecidableEq, Repr

/-- collections.deque append under maxlen: append on the right and keep
only the newest max_size elements. -/
def dequeAppend (maxSize : Nat) (buf : List Command) (c : Command) : List Command :=
  let b := buf ++ [c]
  b.drop (b.length - maxSize)

/-- CommandBuffer.add_command: build the Command and append it to the
bounded deque (the oldest entry is evicted automatically at capacity). -/
def CommandBuffer.add_command (cb : CommandBuffer) (c : Command) : CommandBuffer :=
  { cb with buffer := dequeAppend cb.max_size cb.buffer c }

/-- CommandBuffer.get_commands: copy the deque, reverse it to newest-first
order, and truncate when a truthy limit is given (limit None or 0 in the
source is falsy, so everything is returned). -/
def CommandBuffer.get_commands (cb : CommandBuffer) (limit : Option Nat) : List Command :=
  let commands := cb.buffer.reverse
  match limit with
  | some n => if n = 0 then commands else commands.take n
  | none => commands

/-- A fresh CommandBuffer of the given capacity (CommandBuffer.__init__). -/
def mkCommandBuffer (maxSize : Nat) : CommandBuffer :=
  { max_size := maxSize, buffer := [] }

/-- Fold a sequence of add_command operations over a fresh buffer. -/
def buildBuffer (maxSize : Nat) (cs : List Command) : CommandBuffer :=
  cs.foldl CommandBuffer.add_command (mkCommandBuffer maxSize)

/-! ## Python keyword binding at the history call sites (api/stt.py)

api/stt.py calls CommandBuffer.add_command with keyword arguments
has_error and error_message, which the method signature in
history/command_buffer.py does not declare.  Python raises TypeError for
an unexpected keyword argument; the callers wrap the call in a bare
try/except that logs and continues.  The binding check is made explicit
here so the mismatch is visible in the embedding. -/

/-- Parameter names declared by CommandBuffer.add_command in
history/command_buffer.py (self excluded). -/
def addCommandParams : List String :=
  ["text", "audio_path", "duration", "confidence", "processing_time", "language"]

/-- Keyword-argument names passed to add_command by add_to_command_history
in api/stt.py. -/
def addToHistoryCallKwargs : List String :=
  ["text", "audio_path", "duration", "confidence", "processing_time", "language",
   "has_error", "error_message"]

/-- Keyword-argument names passed to add_command by handle_validation_error
and handle_unexpected_error in api/stt.py. -/
def handleErrorCallKwargs : List String :=
  ["text", "audio_path", "duration", "confidence", "processing_time", "language",
   "has_error", "error_message"]

/-- A Python call binds iff every keyword argument names a declared
parameter; otherwise the call raises TypeError before the body runs. -/
def kwargsAccepted (params kwargs : List String) : Bool :=
  kwargs.all (fun k => params.any (fun p => p = k))

/-- api/stt.py add_to_command_history: attempt add_command with the
keywords above inside try/except; on any exception the buffer is left
unchanged (the error is only logged).  The text passed is the result text,
or the no-transcription tag when it is empty. -/
def add_to_command_history (cb : CommandBuffer) (c : Command) : CommandBuffer :=
  if kwargsAccepted addCommandParams addToHistoryCallKwargs then
    cb.add_command { c with text := if c.text = "" then "[No transcription]" else c.text }
  else
    cb

/-! ## Transcription pipeline (api/stt.py)

The orchestrator is embedded over explicit outcome values for its two
effectful collaborators: loading the upload (which may raise
AudioValidationError or another exception) and the engine call (which may
raise).  Wall-clock derived response fields (processing_time and the
timing metadata strings) are not modelled; no claim mentions them. -/

/-- api/stt.py, dataclass TranscriptionResult. -/
structure TranscriptionResult where
  text : String
  confidence : Rat
  language : String
  has_error : Bool
  error_message : Option String
deriving DecidableEq, Repr

/-- TranscriptionResult.should_forward: no error, stripped text truthy,
and the text does not start with an opening bracket. -/
def TranscriptionResult.should_forward (r : TranscriptionResult) : Bool :=
  !r.has_error && !(pyStrip r.text).data.isEmpty && !(pyStartsWith r.text "[")

/-- Outcome of the engine call made by transcribe_audio: either the result
dictionary (text, confidence, language) or a raised exception message. -/
inductive EngineOutcome where
  | ok (text : String) (confidence : Rat) (language : String)
  | exc (msg : String)
deriving DecidableEq, Repr

/-- api/stt.py transcribe_with_error_handling: on success strip the text
and keep the reported confidence and language; on any exception produce
the bracketed failure tag with the error flag set. -/
def transcribe_with_error_handling (e : EngineOutcome) : TranscriptionResult :=
  match e with
  | .ok text confidence language =>
      { text := pyStrip text, confidence := confidence, language := language,
        has_error := false, error_message := none }
  | .exc msg =>
      { text := "[Transcription Failed: " ++ msg ++ "]", confidence := 0,
        language := "unknown", has_error := true, error_message := some msg }

/-- The HTTP reply of the upload endpoint: the status code together with
the TranscriptionResponse body fields.  Returning a response model from
the FastAPI handler produces status 200; only a raised HTTPException
could produce another status, and the handler raises none. -/
structure HttpReply where
  status : Nat
  text : String
  confidence : Rat
  language : String
  duration : Rat
deriving DecidableEq, Repr

/-- api/stt.py build_transcription_response: errors yield an empty-text,
zero-confidence body; successes carry the result fields.  Either way the
handler returns the model, hence status 200. -/
def build_transcription_response (r : TranscriptionResult) (duration : Rat) : HttpReply :=
  if r.has_error then
    { status := 200, text := "", confidence := 0, language := "unknown", duration := duration }
  else
    { status := 200, text := r.text, confidence := r.confidence,
      language := r.language, duration := duration }

/-- api/stt.py handle_validation_error: try to record a bracketed
invalid-audio Command (the call passes has_error and error_message, which
add_command does not accept, so the swallowed TypeError leaves the buffer
unchanged) and return the empty zero-valued response. -/
def handle_validation_error (cb : CommandBuffer) (msg : String) : CommandBuffer × HttpReply :=
  let cb2 :=
    if kwargsAccepted addCommandParams handleErrorCallKwargs then
      cb.add_command
        { id := 0, text := "[Invalid Audio: " ++ msg ++ "]", audioPath := none,
          timestamp := 0, duration := 0, confidence := 0, language := some "unknown",
          processingTime := 0 }
    else cb
  (cb2, { status := 200, text := "", confidence := 0, language := "unknown", duration := 0 })

/-- api/stt.py handle_unexpected_error: same shape as the validation
handler with the processing-error tag. -/
def handle_unexpected_error (cb : CommandBuffer) (msg : String) : CommandBuffer × HttpReply :=
  let cb2 :=
    if kwargsAccepted addCommandParams handleErrorCallKwargs then
      cb.add_command
        { id := 0, text := "[Processing Error: " ++ msg ++ "]", audioPath := none,
          timestamp := 0, duration := 0, confidence := 0, language := some "unknown",
          processingTime := 0 }
    else cb
  (cb2, { status := 200, text := "", confidence := 0, language := "unknown", duration := 0 })

/-- Outcome of load_and_validate_audio: the decoded audio duration, an
AudioValidationError (malformed file, unsupported sample width, wrong
channel count, wrong sample rate after resample, duration over the cap),
or any other exception. -/
inductive LoadOutcome where
  | ok (duration : Rat)
  | badAudio (msg : String)
  | otherError (msg : String)
deriving DecidableEq, Repr

/-- The observable effects of one run of the upload orchestrator: the HTTP
reply, the command buffer afterwards, and the (text, topic) pair handed to
the Core client when a forward task was created. -/
structure TranscribeOutput where
  reply : HttpReply
  history : CommandBuffer
  forwarded : Option (String × String)
deriving DecidableEq, Repr

/-- api/stt.py transcribe_impl: load and validate the upload, transcribe
with error handling, attempt the history insert, decide the forward, and
build the response; AudioValidationError and unexpected exceptions are
turned into zero-valued 200 replies by the two handlers. -/
def transcribe_impl (cb : CommandBuffer) (load : LoadOutcome) (eng : EngineOutcome)
    (topic : String) (forward_to_core : Bool) : TranscribeOutput :=
  match load with
  | .ok duration =>
      let result := transcribe_with_error_handling eng
      let cb2 := add_to_command_history cb
        { id := 0, text := result.text, audioPath := none, timestamp := 0,
          duration := duration, confidence := result.confidence,
          language := some result.language, processingTime := 0 }
      let fwd := if result.should_forward && forward_to_core
                 then some (result.text, topic) else none
      { reply := build_transcription_response result duration,
        history := cb2, forwarded := fwd }
  | .badAudio msg =>
      let (cb2, reply) := handle_validation_error cb msg
      { reply := reply, history := cb2, forwarded := none }
  | .otherError msg =>
      let (cb2, reply) := handle_unexpected_error cb msg
      { reply := reply, history := cb2, forwarded := none }

/-! ## Core client (integrations/orac_core_client.py) -/

/-- Outcome of the HTTP POST made by the Core client: a timeout, an
aiohttp client error, any other exception, or a response with its status;
for a response the field holds the parsed JSON body when response.json()
succeeds and none when parsing raises. -/
inductive HttpOutcome where
  | timeout
  | clientError (msg : String)
  | otherExc (msg : String)
  | response (status : Nat) (jsonBody : Option String)
deriving DecidableEq, Repr

/-- orac_core_client.py forward_transcription topic validation: a topic
that is empty or whose underscore-free remainder is not alphanumeric is
replaced by the general topic. -/
def validateTopic (topic : String) : String :=
  if topic.data.isEmpty || !pyIsAlnumStr (removeUnderscores topic) then "general" else topic

/-- Whether aiohttp.ClientTimeout is a BaseException subclass.  It is
not: it is the frozen timeout-configuration dataclass, instantiated as
configuration on line 25 of the same module, and Python only allows
BaseException subclasses in an except clause. -/
def clientTimeoutIsBaseException : Bool := false

/-- The message of the TypeError Python raises when an except clause
names a class that does not inherit from BaseException. -/
def pyExceptClassTypeError : String :=
  "catching classes that do not inherit from BaseException is not allowed"

/-- The handler chain of both forward methods, evaluated only when the
try body raises.  Python tests the clauses in order; the first clause is
except aiohttp.ClientTimeout, and because the named class is not a
BaseException subclass, evaluating that clause raises TypeError — the
aiohttp.ClientError and Exception clauses below it are never reached, so
the TypeError propagates to the caller instead of a None return. -/
def coreClientExceptChain : Except String (Option String) :=
  if clientTimeoutIsBaseException then
    Except.ok none
  else
    Except.error pyExceptClassTypeError

/-- What one forward_transcription call did: the URL it posted to, the
prompt field of its payload, and its outcome — a returned value, or a
propagated exception message. -/
structure ForwardCall where
  url : String
  prompt : String
  result : Except String (Option String)
deriving Repr

/-- orac_core_client.py ORACCoreClient.forward_transcription: validate
the topic, build the generate URL and payload, then post.  The paths that
complete without raising return as coded: status 200 with a parseable
body returns the parsed body, 404 and every other status return None.
Every raised exception — timeout, client error, anything else, or a 200
body on which response.json() raises inside the try — reaches the broken
except chain and propagates as TypeError. -/
def forward_transcription (base_url text topic : String) (o : HttpOutcome) : ForwardCall :=
  let vtopic := validateTopic topic
  let url := base_url ++ "/v1/generate/" ++ vtopic
  let result :=
    match o with
    | .response status jsonBody =>
        if status = 200 then
          match jsonBody with
          | some j => Except.ok (some j)
          | none => coreClientExceptChain
        else if status = 404 then Except.ok none
        else Except.ok none
    | .timeout => coreClientExceptChain
    | .clientError _ => coreClientExceptChain
    | .otherExc _ => coreClientExceptChain
  { url := url, prompt := text, result := result }

/-- orac_core_client.py ORACCoreClient.forward_heartbeat: post the batch
to the heartbeat URL; same return paths and same broken except chain as
forward_transcription. -/
def forward_heartbeat (base_url : String) (o : HttpOutcome) :
    String × Except String (Option String) :=
  let url := base_url ++ "/v1/topics/heartbeat"
  let result :=
    match o with
    | .response status jsonBody =>
        if status = 200 then
          match jsonBody with
          | some j => Except.ok (some j)
          | none => coreClientExceptChain
        else if status = 404 then Except.ok none
        else Except.ok none
    | .timeout => coreClientExceptChain
    | .clientError _ => coreClientExceptChain
    | .otherExc _ => coreClientExceptChain
  (url, result)

/-! ## Topic registry (core/topic_registry.py, models/topic.py)

TopicConfig is a pydantic BaseModel; assigning an attribute that is not a
declared field raises.  Datetimes are modelled as naturals, the metadata
dict as an insertion-ordered association list. -/

/-- The field names declared on models/topic.py TopicConfig. -/
def topicConfigFields : List String := ["name", "orac_core_url", "last_seen", "metadata"]

/-- models/topic.py TopicConfig: the declared fields and nothing else. -/
structure TopicConfig where
  name : String
  orac_core_url : Option String
  last_seen : Option Nat
  metadata : List (String × String)
deriving DecidableEq, Repr

/-- Python dict item assignment d[k] = v: update in place when the key
exists, append otherwise. -/
def dictSet (d : List (String × String)) (k v : String) : List (String × String) :=
  if d.any (fun p => p.1 = k) then
    d.map (fun p => if p.1 = k then (k, v) else p)
  else d ++ [(k, v)]

/-- Python dict.update: set every key of the second dict into the first. -/
def dictUpdate (d m : List (String × String)) : List (String × String) :=
  m.foldl (fun acc p => dictSet acc p.1 p.2) d

/-- models/topic.py TopicConfig.update_activity: refresh last_seen and
merge the metadata when a truthy dict was given. -/
def TopicConfig.update_activity (t : TopicConfig) (now : Nat)
    (md : Option (List (String × String))) : TopicConfig :=
  let t2 := { t with last_seen := some now }
  match md with
  | some m => if m.isEmpty then t2 else { t2 with metadata := dictUpdate t2.metadata m }
  | none => t2

/-- Replace the value stored under a key of an association list. -/
def assocReplace (reg : List (String × TopicConfig)) (name : String) (t : TopicConfig) :
    List (String × TopicConfig) :=
  reg.map (fun p => if p.1 = name then (name, t) else p)

/-- core/topic_registry.py TopicRegistry.auto_register: create the topic
when absent (last_seen now, metadata from the heartbeat or empty),
otherwise update its activity. -/
def TopicRegistry.auto_register (reg : List (String × TopicConfig)) (now : Nat)
    (name : String) (md : Option (List (String × String))) : List (String × TopicConfig) :=
  match reg.lookup name with
  | none =>
      reg ++ [(name,
        { name := name, orac_core_url := none, last_seen := some now,
          metadata := md.getD [] })]
  | some t => assocReplace reg name (t.update_activity now md)

/-- core/topic_registry.py TopicRegistry.get_core_url: the per-topic
override or None. -/
def TopicRegistry.get_core_url (reg : List (String × TopicConfig)) (name : String) :
    Option String :=
  match reg.lookup name with
  | some t => t.orac_core_url
  | none => none

/-- core/topic_registry.py TopicRegistry.set_wake_words_to_strip:
auto-register the topic when absent, then assign the wake_words_to_strip
attribute on the stored TopicConfig.  The pydantic model declares no such
field, so the assignment raises; the method has no handler, hence the
error propagates to the caller and the csv is never stored. -/
def TopicRegistry.set_wake_words_to_strip (reg : List (String × TopicConfig)) (now : Nat)
    (name : String) (_wake_words : Option String) :
    Except String (List (String × TopicConfig)) :=
  let reg1 :=
    if (reg.lookup name).isSome then reg
    else TopicRegistry.auto_register reg now name none
  if topicConfigFields.any (fun f => f = "wake_words_to_strip") then
    Except.ok reg1
  else
    Except.error "TopicConfig object has no field wake_words_to_strip"

/-- core/topic_registry.py TopicRegistry.group_by_core_url: partition the
names by override URL in first-seen order, appending the group of
default-routed names under None last.  The wake_words argument of the
claim plays no part here. -/
def addToGroup (g : List (String × List String)) (url : String) (t : String) :
    List (String × List String) :=
  match g with
  | [] => [(url, [t])]
  | (u, ts) :: rest =>
      if u = url then (u, ts ++ [t]) :: rest else (u, ts) :: addToGroup rest url t

/-- The grouping loop of group_by_core_url over one list of topic names. -/
def groupLoop (reg : List (String × TopicConfig)) (topics : List String) :
    List (String × List String) × List String :=
  topics.foldl
    (fun acc name =>
      match TopicRegistry.get_core_url reg name with
      | some url => (addToGroup acc.1 url name, acc.2)
      | none => (acc.1, acc.2 ++ [name]))
    ([], [])

/-- core/topic_registry.py TopicRegistry.group_by_core_url. -/
def TopicRegistry.group_by_core_url (reg : List (String × TopicConfig))
    (topics : List String) : List (Option String × List String) :=
  let (grouped, defaults) := groupLoop reg topics
  grouped.map (fun p => (some p.1, p.2)) ++
    (if defaults.isEmpty then [] else [(none, defaults)])

/-! ## Heartbeat aggregator (core/heartbeat_manager.py)

Times are integer seconds; the ttl comparison in the source is on the
real-valued total_seconds of a datetime difference, modelled exactly on
the integers. -/

/-- models/heartbeat.py ModelHeartbeat. -/
structure ModelHeartbeat where
  topic : String
  wake_word : String
  status : String
  last_triggered : Option Nat
  trigger_count : Nat
deriving DecidableEq, Repr

/-- One entry of the aggregator's heartbeats dict: the instance id key
with the stored source, producer timestamp, models, and received_at. -/
structure InstanceRecord where
  instance_id : String
  source : String
  timestamp : Nat
  models : List ModelHeartbeat
  received_at : Int
deriving DecidableEq, Repr

/-- models/heartbeat.py TopicHeartbeat. -/
structure TopicHeartbeat where
  name : String
  status : String
  last_triggered : Option Nat
  trigger_count : Nat
  wake_word : String
deriving DecidableEq, Repr

/-- The TopicHeartbeat built from an active model inside the forward
cycle's collection loop. -/
def toTopicHeartbeat (m : ModelHeartbeat) : TopicHeartbeat :=
  { name := m.topic, status := "active", last_triggered := m.last_triggered,
    trigger_count := m.trigger_count, wake_word := m.wake_word }

/-- One batched CoreHeartbeatRequest: the Core URL the batch is sent to
(None meaning the default client) and the filtered topics. -/
structure HeartbeatBatch where
  core_url : Option String
  topics : List TopicHeartbeat
deriving DecidableEq, Repr

/-- The stale check of the collection loop: record age strictly above the
ttl. -/
def isStaleRecord (ttl now : Int) (d : InstanceRecord) : Bool :=
  now - d.received_at > ttl

/-- The instance ids collected into stale_instances by the forward cycle's
walk over the heartbeats dict. -/
def staleIds (ttl now : Int) (hbs : List InstanceRecord) : List String :=
  (hbs.filter (isStaleRecord ttl now)).map (fun d => d.instance_id)

/-- The all_topics list built by the walk: every active model of every
non-stale record, in dict order, as a TopicHeartbeat. -/
def collectActiveTopics (ttl now : Int) (hbs : List InstanceRecord) : List TopicHeartbeat :=
  (hbs.filter (fun d => !isStaleRecord ttl now d)).flatMap
    (fun d => (d.models.filter (fun m => m.status = "active")).map toTopicHeartbeat)

/-- The topic_names list built by the walk, parallel to all_topics. -/
def collectActiveNames (ttl now : Int) (hbs : List InstanceRecord) : List String :=
  (hbs.filter (fun d => !isStaleRecord ttl now d)).flatMap
    (fun d => (d.models.filter (fun m => m.status = "active")).map (fun m => m.topic))

/-- The result of one forward cycle: the heartbeats dict after the stale
deletions and the batches handed to Core clients. -/
structure ForwardCycleResult where
  heartbeats : List InstanceRecord
  batches : List HeartbeatBatch
deriving DecidableEq, Repr

/-- core/heartbeat_manager.py HeartbeatManager, forward cycle: walk the
records collecting active topics of fresh records and the ids of stale
ones, delete the stale records, return early with no batches when nothing
is active, otherwise group the names by Core URL and build one batch per
group; a group routed to the unconfigured default client is skipped. -/
def forward_to_core (reg : List (String × TopicConfig)) (ttl now : Int)
    (defaultConfigured : Bool) (hbs : List InstanceRecord) : ForwardCycleResult :=
  let all_topics := collectActiveTopics ttl now hbs
  let topic_names := collectActiveNames ttl now hbs
  let stale := staleIds ttl now hbs
  let hbs2 := hbs.filter (fun d => !stale.any (fun s => s = d.instance_id))
  if all_topics.isEmpty then
    { heartbeats := hbs2, batches := [] }
  else
    let grouped := TopicRegistry.group_by_core_url reg topic_names
    let batches := grouped.filterMap (fun g =>
      let topics_to_send := all_topics.filter (fun t => g.2.any (fun n => n = t.name))
      match g.1 with
      | none =>
          if defaultConfigured then some { core_url := none, topics := topics_to_send }
          else none
      | some url => some { core_url := some url, topics := topics_to_send })
    { heartbeats := hbs2, batches := batches }

/-! ## Audio sample round trip (audio/validator.py, models/whisper_server.py)

float32 arithmetic is modelled as exact rational arithmetic: dividing an
int16 by 32768 is exact in float32, and the claims below concern the
integer-level round trip. -/

/-- audio/validator.py: an int16 sample normalized to float by dividing by
32768. -/
def decodeInt16 (n : Int) : Rat := (n : Rat) / 32768

/-- The numpy astype int16 cast on a float value: truncation toward zero. -/
def truncTowardZero (q : Rat) : Int := if 0 ≤ q then ⌊q⌋ else ⌈q⌉

/-- models/whisper_server.py audio_to_wav_bytes: multiply by 32767, clip
into the int16 range, cast to int16. -/
def encodeInt16 (x : Rat) : Int :=
  truncTowardZero (min (max (x * 32767) (-32768)) 32767)

/-- Decode an int16 sample to float and re-encode it to a 16-bit WAV
sample. -/
def roundtripInt16 (n : Int) : Int := encodeInt16 (decodeInt16 n)

/-! ## Theorems -/

/-- Appending under the ring bound maps the last-N view of a list to the
last-N view of the extended list. -/
theorem dequeAppend_drop (N : Nat) (l : List Command) (c : Command) :
    dequeAppend N (l.drop (l.length - N)) c = (l ++ [c]).drop ((l ++ [c]).length - N) := by
  simp only [dequeAppend, List.length_append, List.length_drop, List.length_cons,
    List.length_nil]
  rcases le_or_lt N l.length with h | h
  · have h2 : l.length - N ≤ l.length := Nat.sub_le _ _
    have hamt : l.length - (l.length - N) + (0 + 1) - N = 1 := by omega
    have hamt2 : l.length + (0 + 1) - N = (l.length - N) + 1 := by omega
    rw [hamt, hamt2, ← List.drop_drop, List.drop_append_of_le_length h2]
  · have h0 : l.length - N = 0 := by omega
    rw [h0]
    simp

/-- The buffer reached by folding add_command over a fresh ring holds the
last max-size commands in insertion order. -/
theorem foldl_add_command_drop (N : Nat) (l cs : List Command) :
    (cs.foldl CommandBuffer.add_command
        { max_size := N, buffer := l.drop (l.length - N) }).buffer
      = (l ++ cs).drop ((l ++ cs).length - N) := by
  induction cs generalizing l with
  | nil => simp
  | cons c cs ih =>
    rw [List.foldl_cons]
    have hstep : CommandBuffer.add_command
        { max_size := N, buffer := l.drop (l.length - N) } c
        = { max_size := N, buffer := (l ++ [c]).drop ((l ++ [c]).length - N) } := by
      simp [CommandBuffer.add_command, dequeAppend_drop]
    rw [hstep, ih (l ++ [c])]
    simp

/-- The rings built by buildBuffer retain exactly the newest max-size
commands. -/
theorem buildBuffer_buffer (N : Nat) (cs : List Command) :
    (buildBuffer N cs).buffer = cs.drop (cs.length - N) := by
  have h := foldl_add_command_drop N [] cs
  simpa [buildBuffer, mkCommandBuffer] using h

/-- Claim C7: for every sequence of add_command operations on a
CommandBuffer of capacity N, the buffer holds at most N commands after
each operation, and get_commands returns the retained commands newest
first.  The quantification over all insertion sequences covers every
prefix, hence every intermediate state. -/
theorem commandBuffer_bounded_and_newest_first (N : Nat) (cs : List Command) :
    (buildBuffer N cs).buffer.length ≤ N ∧
    (buildBuffer N cs).get_commands none = (cs.drop (cs.length - N)).reverse := by
  have h := buildBuffer_buffer N cs
  constructor
  · rw [h, List.length_drop]
    omega
  · simp [CommandBuffer.get_commands, h]

/-- Claim C1: the history insert never happens.  Every caller passes the
keyword arguments has_error and error_message, which
CommandBuffer.add_command does not declare, so the call raises TypeError;
add_to_command_history and the two error handlers swallow the exception,
leaving the command buffer of the upload pipeline (and of the streaming
pipeline, which calls the same add_to_command_history) unchanged on every
transcription attempt. -/
theorem transcription_attempt_inserts_nothing (cb : CommandBuffer) (load : LoadOutcome)
    (eng : EngineOutcome) (topic : String) (fwd : Bool) (c : Command) :
    (transcribe_impl cb load eng topic fwd).history = cb ∧
    add_to_command_history cb c = cb ∧
    addCommandParams.any (fun p => p = "has_error") = false := by
  have hk : kwargsAccepted addCommandParams addToHistoryCallKwargs = false := by decide
  have hk2 : kwargsAccepted addCommandParams handleErrorCallKwargs = false := by decide
  refine ⟨?_, ?_, by decide⟩
  · cases load <;>
      simp [transcribe_impl, add_to_command_history, handle_validation_error,
        handle_unexpected_error, hk, hk2]
  · simp [add_to_command_history, hk]

/-- Claim C4, counterexample: a concrete rejected upload (wrong sample
rate) is answered with HTTP status 200, not 400 — the handler catches
AudioValidationError and returns a normal response model. -/
theorem upload_bad_audio_counterexample :
    (transcribe_impl (mkCommandBuffer 5)
        (.badAudio "Audio must be 16000Hz, got 8000Hz")
        (.exc "engine never called") "general" true).reply.status = 200 ∧
    (200 : Nat) ≠ 400 := by
  refine ⟨by decide, by decide⟩

/-- Claim C4 as amended: for every upload whose audio is rejected, the
endpoint responds with HTTP status 200 carrying an empty-text,
zero-confidence, zero-duration body, and nothing is forwarded to Core. -/
theorem upload_bad_audio_yields_zero_valued_200 (cb : CommandBuffer) (msg : String)
    (eng : EngineOutcome) (topic : String) (fwd : Bool) :
    (transcribe_impl cb (.badAudio msg) eng topic fwd).reply =
      { status := 200, text := "", confidence := 0, language := "unknown", duration := 0 } ∧
    (transcribe_impl cb (.badAudio msg) eng topic fwd).forwarded = none := by
  constructor <;> rfl

/-- The character list of a string is empty exactly for the empty string. -/
theorem string_data_eq_nil_iff (s : String) : s.data = [] ↔ s = "" := by
  constructor
  · intro h
    exact String.ext h
  · intro h
    rw [h]

/-- The forward predicate of the result, spelled out. -/
theorem should_forward_iff (r : TranscriptionResult) :
    r.should_forward = true ↔
      (r.has_error = false ∧ pyStrip r.text ≠ "" ∧ pyStartsWith r.text "[" = false) := by
  simp only [TranscriptionResult.should_forward, Bool.and_eq_true, Bool.not_eq_true',
    List.isEmpty_iff, ← string_data_eq_nil_iff]
  constructor
  · rintro ⟨⟨h1, h2⟩, h3⟩
    exact ⟨h1, by simpa [string_data_eq_nil_iff] using h2, h3⟩
  · rintro ⟨h1, h2, h3⟩
    exact ⟨⟨h1, by simpa [string_data_eq_nil_iff] using h2⟩, h3⟩

/-- Claim C5: a completed upload attempt is forwarded to Core exactly when
the attempt carries no error, the stripped text is non-empty, the text
does not start with an opening bracket, and forwarding was requested. -/
theorem upload_forward_decision (cb : CommandBuffer) (d : Rat) (eng : EngineOutcome)
    (topic : String) (fwd : Bool) :
    ((transcribe_impl cb (.ok d) eng topic fwd).forwarded).isSome = true ↔
      ((transcribe_with_error_handling eng).has_error = false ∧
       pyStrip (transcribe_with_error_handling eng).text ≠ "" ∧
       pyStartsWith (transcribe_with_error_handling eng).text "[" = false ∧
       fwd = true) := by
  have hsf := should_forward_iff (transcribe_with_error_handling eng)
  simp only [transcribe_impl]
  cases h1 : (transcribe_with_error_handling eng).should_forward <;> cases fwd <;>
    simp_all

/-- Claim C2: no wake-word stripping happens on the forward path.  At the
spec's own worked example — topic jarvis configured with the strip list
hey jarvis, jarvis and engine text Hey Jarvis, turn on the lights — the
text handed to the Core client is the full original transcription, not
the stripped residue (the forward code never consults any strip list, and
nothing in the pipeline modifies the text before forwarding). -/
theorem forwarded_text_is_not_stripped :
    (transcribe_impl (mkCommandBuffer 5) (.ok (3 / 2))
        (.ok "Hey Jarvis, turn on the lights" (19 / 20) "en") "jarvis" true).forwarded
      = some ("Hey Jarvis, turn on the lights", "jarvis") ∧
    "Hey Jarvis, turn on the lights" ≠ "turn on the lights" := by
  refine ⟨by decide, by decide⟩

/-- Claim C3: set_wake_words_to_strip never succeeds.  TopicConfig
declares no wake_words_to_strip field, so the attribute assignment inside
the method raises for every topic name and csv value; the error
propagates to the caller, the csv is never stored, and no snapshot
containing the field is ever written. -/
theorem set_wake_words_never_succeeds (reg : List (String × TopicConfig)) (now : Nat)
    (name : String) (csv : Option String) :
    TopicRegistry.set_wake_words_to_strip reg now name csv
        = Except.error "TopicConfig object has no field wake_words_to_strip" ∧
    topicConfigFields.any (fun f => f = "wake_words_to_strip") = false := by
  have hc : topicConfigFields.any (fun f => f = "wake_words_to_strip") = false := by decide
  exact ⟨by simp [TopicRegistry.set_wake_words_to_strip, hc], hc⟩

/-- Claim C10: the Core-client forwards do not swallow raised failures.
The first except clause of both methods names aiohttp.ClientTimeout — a
timeout-configuration dataclass, not an exception class — so whenever the
try body raises (timeout, connection failure, any other internal failure,
or a 200 body that response.json() cannot parse) evaluating that clause
raises TypeError, which propagates to the caller instead of a None
return.  Only the non-raising paths behave as the claim says: an HTTP 200
with a parseable body returns the parsed body, and a non-200 status
returns None. -/
theorem core_client_forward_raises_on_failure (base_url text topic m j : String) :
    clientTimeoutIsBaseException = false ∧
    (forward_transcription base_url text topic .timeout).result
        = Except.error pyExceptClassTypeError ∧
    (forward_transcription base_url text topic (.clientError m)).result
        = Except.error pyExceptClassTypeError ∧
    (forward_transcription base_url text topic (.otherExc m)).result
        = Except.error pyExceptClassTypeError ∧
    (forward_transcription base_url text topic (.response 200 none)).result
        = Except.error pyExceptClassTypeError ∧
    (forward_transcription base_url text topic (.response 200 (some j))).result
        = Except.ok (some j) ∧
    (forward_transcription base_url text topic (.response 404 none)).result
        = Except.ok none ∧
    (forward_transcription base_url text topic (.response 500 none)).result
        = Except.ok none ∧
    (forward_heartbeat base_url .timeout).2 = Except.error pyExceptClassTypeError ∧
    (forward_heartbeat base_url (.clientError m)).2 = Except.error pyExceptClassTypeError ∧
    (forward_heartbeat base_url (.response 200 none)).2
        = Except.error pyExceptClassTypeError ∧
    (forward_heartbeat base_url (.response 200 (some j))).2 = Except.ok (some j) ∧
    (forward_heartbeat base_url (.response 404 none)).2 = Except.ok none ∧
    (forward_heartbeat base_url (.response 500 none)).2 = Except.ok none :=
  ⟨rfl, rfl, rfl, rfl, rfl, rfl, rfl, rfl, rfl, rfl, rfl, rfl, rfl, rfl⟩

/-- Claim C8, counterexample: the all-underscore topic name matches the
pattern of the spec yet the forward-path validation replaces it, because
the code tests the underscore-free remainder with isalnum and the empty
remainder fails that test. -/
theorem topic_validation_counterexample :
    matchesTopicPattern "_" = true ∧ validateTopic "_" = "general" ∧
    validateTopic "_" ≠ "_" := by
  refine ⟨by decide, by decide, by decide⟩

/-- Claim C8 as amended: an ASCII topic name is used unchanged exactly
when it matches the pattern and contains at least one character that is
not an underscore; otherwise — empty, all underscores, or containing a
character outside the class — it is replaced by the general topic.
Non-ASCII names are outside this statement because Python's isalnum also
accepts non-ASCII alphanumerics. -/
theorem validate_condition_eq (l : List Char) :
    (l.isEmpty || !(!(l.filter (fun c => c ≠ '_')).isEmpty
        && (l.filter (fun c => c ≠ '_')).all (fun c => c.isAlphanum)))
      = !((!l.isEmpty && l.all (fun c => c.isAlphanum || c = '_'))
        && l.any (fun c => c ≠ '_')) := by
  rw [Bool.eq_iff_iff]
  simp only [Bool.or_eq_true, Bool.and_eq_true, Bool.not_eq_true', Bool.not_eq_false',
    List.isEmpty_iff, List.all_eq_true, List.any_eq_true,
    List.mem_filter, decide_eq_true_eq, Bool.and_eq_false_iff,
    Bool.or_eq_true, decide_not, Bool.not_eq_true,
    List.filter_eq_nil_iff, List.all_eq_false, List.any_eq_false]
  constructor
  · rintro (h | h | h)
    · exact Or.inl (Or.inl h)
    · refine Or.inr ?_
      intro x hx
      simpa using h x hx
    · obtain ⟨x, hx, hax⟩ := h
      exact Or.inl (Or.inr ⟨x, hx.1, by simp_all⟩)
  · rintro ((h | h) | h)
    · exact Or.inl h
    · obtain ⟨x, hx, hax⟩ := h
      simp only [Bool.or_eq_true, decide_eq_true_eq, not_or] at hax
      refine Or.inr (Or.inr ?_)
      exact ⟨x, ⟨hx, by simpa using hax.2⟩, by simpa using hax.1⟩
    · refine Or.inr (Or.inl ?_)
      intro x hx
      simpa using h x hx

theorem topic_validation_ascii_characterization (topic : String)
    (h : isAsciiString topic = true) :
    validateTopic topic =
      (if matchesTopicPattern topic && topic.data.any (fun c => c ≠ '_')
       then topic else "general") := by
  clear h
  obtain ⟨l⟩ := topic
  have hcond :
      ((String.mk l).data.isEmpty || !pyIsAlnumStr (removeUnderscores (String.mk l)))
        = !(matchesTopicPattern (String.mk l)
            && (String.mk l).data.any (fun c => c ≠ '_')) := by
    simpa [pyIsAlnumStr, pyIsAlnumChar, removeUnderscores, matchesTopicPattern] using
      validate_condition_eq l
  rw [validateTopic, hcond]
  cases hb : matchesTopicPattern (String.mk l)
      && (String.mk l).data.any (fun c => c ≠ '_') <;>
    simp

/-- Collecting active topics ignores stale records, so pre-filtering the
stale records away changes nothing. -/
theorem collectActiveTopics_filter_fresh (ttl now : Int) (hbs : List InstanceRecord) :
    collectActiveTopics ttl now (hbs.filter (fun d => !isStaleRecord ttl now d))
      = collectActiveTopics ttl now hbs := by
  simp [collectActiveTopics, List.filter_filter]

/-- Collecting active topic names ignores stale records as well. -/
theorem collectActiveNames_filter_fresh (ttl now : Int) (hbs : List InstanceRecord) :
    collectActiveNames ttl now (hbs.filter (fun d => !isStaleRecord ttl now d))
      = collectActiveNames ttl now hbs := by
  simp [collectActiveNames, List.filter_filter]

/-- The heartbeats state left by a forward cycle, in either branch. -/
theorem forward_to_core_heartbeats (reg : List (String × TopicConfig)) (ttl now : Int)
    (dflt : Bool) (hbs : List InstanceRecord) :
    (forward_to_core reg ttl now dflt hbs).heartbeats
      = hbs.filter
          (fun d => !(staleIds ttl now hbs).any (fun s => s = d.instance_id)) := by
  unfold forward_to_core
  by_cases h : (collectActiveTopics ttl now hbs).isEmpty <;> simp [h]

/-- The batches emitted by a forward cycle depend only on the collected
active topics and names. -/
theorem forward_to_core_batches (reg : List (String × TopicConfig)) (ttl now : Int)
    (dflt : Bool) (hbs : List InstanceRecord) :
    (forward_to_core reg ttl now dflt hbs).batches
      = (if (collectActiveTopics ttl now hbs).isEmpty then []
         else
           (TopicRegistry.group_by_core_url reg (collectActiveNames ttl now hbs)).filterMap
             (fun g =>
               let topics_to_send := (collectActiveTopics ttl now hbs).filter
                   (fun t => g.2.any (fun n => n = t.name))
               match g.1 with
               | none =>
                   if dflt then some { core_url := none, topics := topics_to_send }
                   else none
               | some url => some { core_url := some url, topics := topics_to_send })) := by
  unfold forward_to_core
  by_cases h : (collectActiveTopics ttl now hbs).isEmpty <;> simp [h]

/-- Claim C6: a record whose received_at lies more than ttl seconds before
the cycle's now is removed from the aggregator state by the cycle, and the
emitted batches coincide with those of the stale-free state, so the stale
record contributes no topics to any batch. -/
theorem stale_instance_purged_and_unbatched (reg : List (String × TopicConfig))
    (ttl now : Int) (dflt : Bool) (hbs : List InstanceRecord) (e : InstanceRecord)
    (hmem : e ∈ hbs) (hstale : now - e.received_at > ttl) :
    e ∉ (forward_to_core reg ttl now dflt hbs).heartbeats ∧
    (forward_to_core reg ttl now dflt hbs).batches =
      (forward_to_core reg ttl now dflt
          (hbs.filter (fun d => !isStaleRecord ttl now d))).batches := by
  constructor
  · rw [forward_to_core_heartbeats]
    intro hin
    rw [List.mem_filter] at hin
    have hid : e.instance_id ∈ staleIds ttl now hbs := by
      refine List.mem_map_of_mem _ ?_
      rw [List.mem_filter]
      exact ⟨hmem, by simpa [isStaleRecord] using hstale⟩
    have := hin.2
    simp only [Bool.not_eq_true', List.any_eq_false] at this
    exact (by simpa using this e.instance_id hid : False)
  · rw [forward_to_core_batches, forward_to_core_batches,
      collectActiveTopics_filter_fresh, collectActiveNames_filter_fresh]

/-- Claim C9: decoding an int16 sample to float by dividing by 32768 and
re-encoding it to a 16-bit WAV sample — multiply by 32767, clip into the
int16 range, cast to int16 — lands within one least-significant bit of
the original sample.  float32 arithmetic is modelled as exact rational
arithmetic; the quotient of an int16 by 32768 is itself exact in
float32. -/
theorem int16_roundtrip_within_one_lsb (n : Int) (h1 : -32768 ≤ n) (h2 : n ≤ 32767) :
    (roundtripInt16 n - n).natAbs ≤ 1 := by
  have h32 : (0 : Rat) < 32768 := by norm_num
  have hn1 : (-32768 : Rat) ≤ (n : Rat) := by exact_mod_cast h1
  have hn2 : (n : Rat) ≤ 32767 := by exact_mod_cast h2
  unfold roundtripInt16 encodeInt16 decodeInt16 truncTowardZero
  set q : Rat := (n : Rat) / 32768 * 32767 with hq
  have hqval : q = (n : Rat) * 32767 / 32768 := by
    rw [hq]
    ring
  have hub : q ≤ 32767 := by
    rw [hqval, div_le_iff₀ h32]
    nlinarith
  have hlb : (-32768 : Rat) ≤ q := by
    rw [hqval, le_div_iff₀ h32]
    nlinarith
  rw [max_eq_left hlb, min_eq_left hub]
  by_cases hn : 0 ≤ n
  · have hn0 : (0 : Rat) ≤ (n : Rat) := by exact_mod_cast hn
    have hq0 : 0 ≤ q := by
      rw [hqval]
      exact div_nonneg (by nlinarith) (le_of_lt h32)
    rw [if_pos hq0]
    have hle : q ≤ (n : Rat) := by
      rw [hqval, div_le_iff₀ h32]
      nlinarith
    have hge : ((n : Rat) - 1) ≤ q := by
      rw [hqval, le_div_iff₀ h32]
      nlinarith
    have hfle : ⌊q⌋ ≤ n := by
      have := Int.floor_le_floor hle
      simpa using this
    have hfge : n - 1 ≤ ⌊q⌋ := by
      rw [Int.le_floor]
      push_cast
      exact hge
    omega
  · have hnneg : (n : Rat) < 0 := by
      have hlt : n < 0 := lt_of_not_le hn
      exact_mod_cast hlt
    have hqneg : ¬ 0 ≤ q := by
      rw [not_le, hqval]
      apply div_neg_of_neg_of_pos _ h32
      nlinarith
    rw [if_neg hqneg]
    have hge : (n : Rat) ≤ q := by
      rw [hqval, le_div_iff₀ h32]
      nlinarith
    have hle : q ≤ (n : Rat) + 1 := by
      rw [hqval, div_le_iff₀ h32]
      nlinarith
    have hc1 : n ≤ ⌈q⌉ := by
      have := Int.ceil_le_ceil hge
      simpa using this
    have hc2 : ⌈q⌉ ≤ n + 1 := by
      rw [Int.ceil_le]
      push_cast
      exact hle
    omega

/-! ## Witnesses -/

/-- Witness for claim C9 at the sample 12345. -/
theorem int16_roundtrip_witness :
    -32768 ≤ (12345 : Int) ∧ (12345 : Int) ≤ 32767 ∧
    ((roundtripInt16 12345 - 12345).natAbs ≤ 1) :=
  ⟨by decide, by decide,
    int16_roundtrip_within_one_lsb 12345 (by decide) (by decide)⟩

/-- Witness for claim C8 at the topic name jarvis. -/
theorem topic_validation_witness :
    isAsciiString "jarvis" = true ∧
    validateTopic "jarvis" =
      (if matchesTopicPattern "jarvis" && "jarvis".data.any (fun c => c ≠ '_')
       then "jarvis" else "general") :=
  ⟨by decide, topic_validation_ascii_characterization "jarvis" (by decide)⟩

/-- Witness for claim C6 with one stale and one fresh instance record. -/
theorem stale_instance_witness :
    let stale_rec : InstanceRecord :=
      { instance_id := "pi_a", source := "hey_orac", timestamp := 0,
        models := [{ topic := "jarvis", wake_word := "hey jarvis",
                     status := "active", last_triggered := none, trigger_count := 3 }],
        received_at := 0 }
    let fresh_rec : InstanceRecord :=
      { instance_id := "pi_b", source := "hey_orac", timestamp := 0,
        models := [{ topic := "cortana", wake_word := "cortana",
                     status := "active", last_triggered := none, trigger_count := 1 }],
        received_at := 150 }
    stale_rec ∈ [stale_rec, fresh_rec] ∧
    (200 : Int) - stale_rec.received_at > 120 ∧
    (stale_rec ∉ (forward_to_core [] 120 200 true [stale_rec, fresh_rec]).heartbeats ∧
     (forward_to_core [] 120 200 true [stale_rec, fresh_rec]).batches =
       (forward_to_core [] 120 200 true
           ([stale_rec, fresh_rec].filter (fun d => !isStaleRecord 120 200 d))).batches) :=
  ⟨by decide, by decide,
    stale_instance_purged_and_unbatched [] 120 200 true _ _ (by decide) (by decide)⟩

end OracStt
